import Mathlib

/-
Verification development for `spectra.py` (plumage repository).

The script wraps an external IDL spectral-synthesis engine.  We embed it
shallowly: numbers are rationals (every numeral appearing in the source is
exactly representable), the IDL session is modelled by the list of commands
issued (the trace) plus two oracle functions `engine` (the `get_spec` call)
and `resamp` (the `resamp` call) standing for the opaque external engine,
and Python exceptions are modelled with `Except`.
-/

namespace Spectra

/-- Python-level errors raised by the script: the script's own
`ParameterOutOfBoundsException` (spectra.py line 14) and Python's built-in
`NameError`, raised when an unbound module-level name is referenced. -/
inductive PyError where
  | ParameterOutOfBoundsException (msg : String)
  | NameError (name : String)
  deriving Repr, DecidableEq

/-- Python `int()` truncation toward zero, the conversion `%d` / `%i`
formatting applies to a numeric value. -/
def pyInt (q : ℚ) : Int := q.num.tdiv (q.den : Int)

/-- The synthesis command `spectrum = get_spec(%d, %f, %f, !null, CFe, %i, %i,
ipres=%i, norm=%i, grid=grid, wave=wave)` of spectra.py lines 103-105, as a
structured record: fields formatted with `%d`/`%i` are integers, fields
formatted with `%f` keep their exact numeric value. -/
structure SynthCmd where
  teff : Int
  logg : ℚ
  feh : ℚ
  cfe : ℚ
  wlMin : Int
  wlMax : Int
  ipres : Int
  norm : Int
  deriving Repr, DecidableEq

/-- One `idl(...)` round-trip issued by `get_idl_spectrum`, in source order:
`CFe = 0.`, the `get_spec` synthesis command, the `waveout = [lo:hi:step]`
grid assignment, the `resamp` call, and `wave = waveout`. -/
inductive EngineCall where
  | assignCFe (v : ℚ)
  | synth (cmd : SynthCmd)
  | assignGrid (lo hi step : ℚ)
  | resampleCall
  | assignWave
  deriving Repr, DecidableEq

/-- The literal `5.5` of spectra.py line 92, stored in normalized
numerator/denominator form (11/2) so that the kernel can evaluate the
comparison; `ratFiveFive_eq` below proves it equals `5.5`. -/
def ratFiveFive : ℚ := ⟨11, 2, by decide, by decide⟩

/-- Error message of the temperature bounds check (spectra.py lines 90-91). -/
def tempMsg : String := "Temperature must be 2500 <= Teff (K) <= 8000"

/-- Error message of the surface-gravity bounds check (lines 93-94). -/
def loggMsg : String := "Surface gravity must be -1 <= logg (cgs) <= 5.5"

/-- Error message of the metallicity bounds check (lines 96-97). -/
def fehMsg : String := "Metallicity must be -5 <= [Fe/H] (dex) <= 1"

/-- Error message of the wavelength-range check (lines 99-100); note the
source text quotes bounds 2,000 and 60,000 although the check tests
`wl_min > wl_max or wl_max > 200000 or wl_min < 2000`. -/
def wlMsg : String := "Wavelengths must be 2,000 <= lambda (A) <= 60,000"

/-- The if/elif validation chain of `get_idl_spectrum` (spectra.py lines
89-100), in source order; returns the message of the first violated check. -/
def validate (teff logg feh wl_min wl_max : ℚ) : Option String :=
  if teff > 8000 ∨ teff < 2500 then some tempMsg
  else if logg > ratFiveFive ∨ logg < -1 then some loggMsg
  else if feh > 1 ∨ feh < -5 then some fehMsg
  else if wl_min > wl_max ∨ wl_max > 200000 ∨ wl_min < 2000 then some wlMsg
  else none

/-- IDL array-generation `[lo:hi:step]`: the values `lo, lo+step, ...` not
exceeding `hi` (empty unless `0 < step` and `lo ≤ hi`).  This is the grid the
command of spectra.py line 110 makes the engine build. -/
def idlGrid (lo hi step : ℚ) : List ℚ :=
  if 0 < step ∧ lo ≤ hi then
    (List.range ((Int.floor ((hi - lo) / step)).toNat + 1)).map
      (fun i : ℕ => lo + (i : ℚ) * step)
  else []

/-- The synthesis command built by spectra.py lines 103-105: `teff` formatted
`%d`, `logg`/`feh` formatted `%f`, `CFe` the session variable just set to 0,
`wl_min`/`wl_max`/`resolution`/`norm` formatted `%i`. -/
def mkSynthCmd (teff logg feh wl_min wl_max resolution norm : ℚ) : SynthCmd :=
  { teff := pyInt teff
    logg := logg
    feh := feh
    cfe := 0
    wlMin := pyInt wl_min
    wlMax := pyInt wl_max
    ipres := pyInt resolution
    norm := pyInt norm }

/-- `get_idl_spectrum` (spectra.py lines 58-114).  Returns the list of engine
calls issued together with either the raised exception or the returned
`(wave, spectrum)` pair.  `engine` and `resamp` are the opaque external
computations performed by the IDL `get_spec` and `resamp` routines. -/
def get_idl_spectrum (engine : SynthCmd → List ℚ × List ℚ)
    (resamp : List ℚ → List ℚ → List ℚ → List ℚ)
    (teff logg feh wl_min wl_max resolution norm : ℚ)
    (do_resample : Bool) (wl_per_pixel : ℚ) :
    List EngineCall × Except PyError (List ℚ × List ℚ) :=
  match validate teff logg feh wl_min wl_max with
  | some msg => ([], .error (.ParameterOutOfBoundsException msg))
  | none =>
    let cmd := mkSynthCmd teff logg feh wl_min wl_max resolution norm
    let ws := engine cmd
    if do_resample then
      let lo : ℚ := (pyInt wl_min : ℚ) + wl_per_pixel
      let hi : ℚ := (pyInt wl_max : ℚ) - 2 * wl_per_pixel
      let waveout := idlGrid lo hi wl_per_pixel
      ([.assignCFe 0, .synth cmd, .assignGrid lo hi wl_per_pixel,
        .resampleCall, .assignWave],
       .ok (waveout, resamp ws.1 ws.2 waveout))
    else
      ([.assignCFe 0, .synth cmd], .ok ws)

/-- Python `zip(teffs, loggs, fehs)` over the three parallel lists. -/
def zip3 (teffs loggs fehs : List ℚ) : List (ℚ × ℚ × ℚ) :=
  teffs.zip (loggs.zip fehs)

/-- The loop body of `get_idl_spectra` (spectra.py lines 159-163): process the
tuples in order, collecting each returned `(wave, spectrum)` pair; an
exception from any tuple propagates immediately.  Note the source passes
`True` for `do_resample` (line 162) regardless of the caller's argument. -/
def batchLoop (engine : SynthCmd → List ℚ × List ℚ)
    (resamp : List ℚ → List ℚ → List ℚ → List ℚ)
    (wl_min wl_max resolution norm wl_per_pixel : ℚ) :
    List (ℚ × ℚ × ℚ) → Except PyError (List (List ℚ × List ℚ))
  | [] => .ok []
  | x :: rest =>
    match (get_idl_spectrum engine resamp x.1 x.2.1 x.2.2 wl_min wl_max
            resolution norm true wl_per_pixel).2 with
    | .error e => .error e
    | .ok ws =>
      match batchLoop engine resamp wl_min wl_max resolution norm wl_per_pixel
              rest with
      | .error e => .error e
      | .ok results => .ok (ws :: results)

/-- `get_idl_spectra` (spectra.py lines 153-166): run the loop over the zipped
tuples, then `return wave, spectra`.  When the loop body never ran, the local
name `wave` was never bound and Python raises `NameError` at the return. -/
def get_idl_spectra (engine : SynthCmd → List ℚ × List ℚ)
    (resamp : List ℚ → List ℚ → List ℚ → List ℚ)
    (teffs loggs fehs : List ℚ)
    (wl_min wl_max resolution norm : ℚ)
    (do_resample : Bool) (wl_per_pixel : ℚ) :
    Except PyError (List ℚ × List (List ℚ)) :=
  match batchLoop engine resamp wl_min wl_max resolution norm wl_per_pixel
          (zip3 teffs loggs fehs) with
  | .error e => .error e
  | .ok results =>
    match results.getLast? with
    | none => .error (.NameError "wave")
    | some ws => .ok (ws.1, results.map Prod.snd)

/-- The `(wave, spectrum)` pair `get_idl_spectrum` returns for one tuple on
the resampling path, with a default for the exceptional case; used to state
which spectrum each batch row holds. -/
def requestPair (engine : SynthCmd → List ℚ × List ℚ)
    (resamp : List ℚ → List ℚ → List ℚ → List ℚ)
    (wl_min wl_max resolution norm wl_per_pixel : ℚ)
    (x : ℚ × ℚ × ℚ) : List ℚ × List ℚ :=
  match (get_idl_spectrum engine resamp x.1 x.2.1 x.2.2 wl_min wl_max
          resolution norm true wl_per_pixel).2 with
  | .ok ws => ws
  | .error _ => ([], [])

/- Module-level configuration (spectra.py lines 20-44).  `using_echelle` is
False, so only the WiFeS branch runs; after both of its assignment pairs the
constants hold the 7000-series values.  `wl_per_pixel` is assigned only
inside the echelle branch, which does not execute, so at module scope the
name stays unbound: modelled as `none`. -/

def using_echelle : Bool := false

def norm : ℚ := 1

def resolution : ℚ := 7000

def wl_min : ℚ := 3600

def wl_max : ℚ := 9000

def wl_per_pixel : Option ℚ := none

/-- One row of `standards.tsv` (the columns the script uses). -/
structure StdRow where
  source_id : String
  teff : ℚ
  logg : ℚ
  feh : ℚ
  deriving Repr, DecidableEq

/-- The selection mask of spectra.py line 124:
`(standards["teff"] < 5500) * (standards["logg"] > 4.0)` (the literal `4.0`
denotes exactly the rational 4). -/
def standardsMask (r : StdRow) : Bool :=
  decide (r.teff < 5500) && decide (r.logg > 4)

/-- The loop of `retrieve_standards` (spectra.py lines 133-139): each
iteration evaluates the call arguments, which reference the module-level name
`wl_per_pixel`; since that name is unbound, the first iteration raises
`NameError` before `get_idl_spectrum` can run. -/
def standardsLoop (engine : SynthCmd → List ℚ × List ℚ)
    (resamp : List ℚ → List ℚ → List ℚ → List ℚ) :
    List StdRow → Except PyError (List (List ℚ × List ℚ))
  | [] => .ok []
  | r :: rest =>
    match wl_per_pixel with
    | none => .error (.NameError "wl_per_pixel")
    | some wpp =>
      match (get_idl_spectrum engine resamp r.teff r.logg r.feh wl_min wl_max
              resolution 1 true wpp).2 with
      | .error e => .error e
      | .ok ws =>
        match standardsLoop engine resamp rest with
        | .error e => .error e
        | .ok results => .ok (ws :: results)

/-- `retrieve_standards` (spectra.py lines 117-150): filter the standards
table with the cool-dwarf mask, run the request loop over the selected rows,
then save `spectra` and `wave` (modelled as returning them).  When no row is
selected the loop never binds `wave` and the `np.savetxt(..., wave)` of line
144 raises `NameError`.  The trailing Cannon-model construction is outside
the embedded behavior. -/
def retrieve_standards (engine : SynthCmd → List ℚ × List ℚ)
    (resamp : List ℚ → List ℚ → List ℚ → List ℚ)
    (standards : List StdRow) : Except PyError (List ℚ × List (List ℚ)) :=
  let selected := standards.filter standardsMask
  match standardsLoop engine resamp selected with
  | .error e => .error e
  | .ok results =>
    match results.getLast? with
    | none => .error (.NameError "wave")
    | some ws => .ok (ws.1, results.map Prod.snd)

/-- A concrete stand-in for the opaque synthesis engine, used in closed
evaluations. -/
def constEngine : SynthCmd → List ℚ × List ℚ := fun _ => ([1], [1])

/-- A concrete stand-in for the opaque resampling routine: return the target
grid (same length as a genuine resampled flux vector). -/
def constResamp : List ℚ → List ℚ → List ℚ → List ℚ := fun _ _ target => target

/-- True when the modelled call returned normally (raised no exception). -/
def isOk {α : Type} : Except PyError α → Bool
  | .ok _ => true
  | .error _ => false

/-! ### Helper lemmas -/

theorem ratFiveFive_eq : ratFiveFive = 5.5 := by
  have h : ratFiveFive = ((11 : Int) : ℚ) / ((2 : Nat) : ℚ) := by
    rw [ratFiveFive, Rat.mk'_eq_divInt, Rat.divInt_eq_div]
    norm_num
  rw [h]
  norm_num

theorem validate_none_iff (teff logg feh wl_min wl_max : ℚ) :
    validate teff logg feh wl_min wl_max = none ↔
      (teff ≤ 8000 ∧ 2500 ≤ teff ∧ logg ≤ 5.5 ∧ -1 ≤ logg ∧ feh ≤ 1 ∧
        -5 ≤ feh ∧ wl_min ≤ wl_max ∧ wl_max ≤ 200000 ∧ 2000 ≤ wl_min) := by
  unfold validate
  rw [ratFiveFive_eq]
  split_ifs with h1 h2 h3 h4
  · simp only [(by simp : (some tempMsg = none) ↔ False), false_iff]
    rintro ⟨c1, c2, -⟩
    rcases h1 with h | h <;> linarith
  · simp only [(by simp : (some loggMsg = none) ↔ False), false_iff]
    rintro ⟨-, -, c3, c4, -⟩
    rcases h2 with h | h <;> linarith
  · simp only [(by simp : (some fehMsg = none) ↔ False), false_iff]
    rintro ⟨-, -, -, -, c5, c6, -⟩
    rcases h3 with h | h <;> linarith
  · simp only [(by simp : (some wlMsg = none) ↔ False), false_iff]
    rintro ⟨-, -, -, -, -, -, c7, c8, c9⟩
    rcases h4 with h | h | h <;> linarith
  · push_neg at h1 h2 h3 h4
    simp only [true_iff]
    exact ⟨h1.1, h1.2, h2.1, h2.2, h3.1, h3.2, h4.1, h4.2.1, h4.2.2⟩

theorem validate_some_of_invalid (teff logg feh wl_min wl_max : ℚ)
    (h : teff > 8000 ∨ teff < 2500 ∨ logg > 5.5 ∨ logg < -1 ∨ feh > 1 ∨
      feh < -5 ∨ wl_min > wl_max ∨ wl_max > 200000 ∨ wl_min < 2000) :
    ∃ m, validate teff logg feh wl_min wl_max = some m := by
  unfold validate
  rw [ratFiveFive_eq]
  split_ifs with h1 h2 h3 h4
  · exact ⟨_, rfl⟩
  · exact ⟨_, rfl⟩
  · exact ⟨_, rfl⟩
  · exact ⟨_, rfl⟩
  · exfalso
    push_neg at h1 h2 h3 h4
    rcases h with h | h | h | h | h | h | h | h | h <;>
      linarith [h1.1, h1.2, h2.1, h2.2, h3.1, h3.2, h4.1, h4.2.1, h4.2.2]

theorem get_idl_spectrum_error (engine : SynthCmd → List ℚ × List ℚ)
    (resamp : List ℚ → List ℚ → List ℚ → List ℚ)
    (teff logg feh wl_min wl_max resolution norm : ℚ)
    (do_resample : Bool) (wl_per_pixel : ℚ) (m : String)
    (hm : validate teff logg feh wl_min wl_max = some m) :
    get_idl_spectrum engine resamp teff logg feh wl_min wl_max resolution norm
        do_resample wl_per_pixel =
      ([], .error (.ParameterOutOfBoundsException m)) := by
  simp only [get_idl_spectrum, hm]

theorem get_idl_spectrum_ok_resample (engine : SynthCmd → List ℚ × List ℚ)
    (resamp : List ℚ → List ℚ → List ℚ → List ℚ)
    (teff logg feh wl_min wl_max resolution norm wl_per_pixel : ℚ)
    (hv : validate teff logg feh wl_min wl_max = none) :
    (get_idl_spectrum engine resamp teff logg feh wl_min wl_max resolution norm
        true wl_per_pixel).2 =
      .ok (idlGrid ((pyInt wl_min : ℚ) + wl_per_pixel)
             ((pyInt wl_max : ℚ) - 2 * wl_per_pixel) wl_per_pixel,
           resamp (engine (mkSynthCmd teff logg feh wl_min wl_max resolution
                     norm)).1
             (engine (mkSynthCmd teff logg feh wl_min wl_max resolution
                norm)).2
             (idlGrid ((pyInt wl_min : ℚ) + wl_per_pixel)
               ((pyInt wl_max : ℚ) - 2 * wl_per_pixel) wl_per_pixel)) := by
  simp only [get_idl_spectrum, hv, if_true]

theorem get_idl_spectrum_isOk_of_valid (engine : SynthCmd → List ℚ × List ℚ)
    (resamp : List ℚ → List ℚ → List ℚ → List ℚ)
    (teff logg feh wl_min wl_max resolution norm : ℚ)
    (do_resample : Bool) (wl_per_pixel : ℚ)
    (hv : validate teff logg feh wl_min wl_max = none) :
    isOk (get_idl_spectrum engine resamp teff logg feh wl_min wl_max resolution
        norm do_resample wl_per_pixel).2 = true := by
  cases do_resample <;> simp only [get_idl_spectrum, hv, if_true, if_false,
    Bool.false_eq_true, isOk]

theorem get_idl_spectrum_wave_of_ok (engine : SynthCmd → List ℚ × List ℚ)
    (resamp : List ℚ → List ℚ → List ℚ → List ℚ)
    (teff logg feh wl_min wl_max resolution norm wl_per_pixel : ℚ)
    (ws : List ℚ × List ℚ)
    (h : (get_idl_spectrum engine resamp teff logg feh wl_min wl_max resolution
        norm true wl_per_pixel).2 = .ok ws) :
    ws.1 = idlGrid ((pyInt wl_min : ℚ) + wl_per_pixel)
      ((pyInt wl_max : ℚ) - 2 * wl_per_pixel) wl_per_pixel := by
  cases hv : validate teff logg feh wl_min wl_max with
  | some m =>
    rw [get_idl_spectrum_error engine resamp teff logg feh wl_min wl_max
      resolution norm true wl_per_pixel m hv] at h
    exact absurd h (by simp)
  | none =>
    rw [get_idl_spectrum_ok_resample engine resamp teff logg feh wl_min wl_max
      resolution norm wl_per_pixel hv] at h
    cases h
    rfl

theorem requestPair_spec (engine : SynthCmd → List ℚ × List ℚ)
    (resamp : List ℚ → List ℚ → List ℚ → List ℚ)
    (wl_min wl_max resolution norm wl_per_pixel : ℚ) (x : ℚ × ℚ × ℚ)
    (hv : validate x.1 x.2.1 x.2.2 wl_min wl_max = none) :
    (get_idl_spectrum engine resamp x.1 x.2.1 x.2.2 wl_min wl_max resolution
        norm true wl_per_pixel).2 =
      .ok (requestPair engine resamp wl_min wl_max resolution norm wl_per_pixel
        x) := by
  rw [requestPair,
    get_idl_spectrum_ok_resample engine resamp x.1 x.2.1 x.2.2 wl_min wl_max
      resolution norm wl_per_pixel hv]

theorem batchLoop_ok (engine : SynthCmd → List ℚ × List ℚ)
    (resamp : List ℚ → List ℚ → List ℚ → List ℚ)
    (wl_min wl_max resolution norm wl_per_pixel : ℚ)
    (ts : List (ℚ × ℚ × ℚ))
    (hval : ∀ x ∈ ts, validate x.1 x.2.1 x.2.2 wl_min wl_max = none) :
    batchLoop engine resamp wl_min wl_max resolution norm wl_per_pixel ts =
      .ok (ts.map (requestPair engine resamp wl_min wl_max resolution norm
        wl_per_pixel)) := by
  induction ts with
  | nil => rfl
  | cons x rest ih =>
    have hx := hval x (List.mem_cons_self x rest)
    have hrest : ∀ y ∈ rest, validate y.1 y.2.1 y.2.2 wl_min wl_max = none :=
      fun y hy => hval y (List.mem_cons_of_mem x hy)
    simp only [batchLoop,
      requestPair_spec engine resamp wl_min wl_max resolution norm wl_per_pixel
        x hx,
      ih hrest, List.map_cons]

theorem batchLoop_append_error (engine : SynthCmd → List ℚ × List ℚ)
    (resamp : List ℚ → List ℚ → List ℚ → List ℚ)
    (wl_min wl_max resolution norm wl_per_pixel : ℚ)
    (ts rest : List (ℚ × ℚ × ℚ)) (bad : ℚ × ℚ × ℚ) (m : String)
    (hval : ∀ x ∈ ts, validate x.1 x.2.1 x.2.2 wl_min wl_max = none)
    (hbad : validate bad.1 bad.2.1 bad.2.2 wl_min wl_max = some m) :
    batchLoop engine resamp wl_min wl_max resolution norm wl_per_pixel
        (ts ++ bad :: rest) =
      .error (.ParameterOutOfBoundsException m) := by
  induction ts with
  | nil =>
    simp only [List.nil_append, batchLoop,
      get_idl_spectrum_error engine resamp bad.1 bad.2.1 bad.2.2 wl_min wl_max
        resolution norm true wl_per_pixel m hbad]
  | cons x xs ih =>
    have hx := hval x (List.mem_cons_self x xs)
    have hxs : ∀ y ∈ xs, validate y.1 y.2.1 y.2.2 wl_min wl_max = none :=
      fun y hy => hval y (List.mem_cons_of_mem x hy)
    simp only [List.cons_append, batchLoop,
      requestPair_spec engine resamp wl_min wl_max resolution norm wl_per_pixel
        x hx,
      List.append_eq, ih hxs]

theorem batchLoop_ok_fst (engine : SynthCmd → List ℚ × List ℚ)
    (resamp : List ℚ → List ℚ → List ℚ → List ℚ)
    (wl_min wl_max resolution norm wl_per_pixel : ℚ)
    (ts : List (ℚ × ℚ × ℚ)) (rs : List (List ℚ × List ℚ))
    (hb : batchLoop engine resamp wl_min wl_max resolution norm wl_per_pixel ts
      = .ok rs) :
    ∀ p ∈ rs, p.1 = idlGrid ((pyInt wl_min : ℚ) + wl_per_pixel)
      ((pyInt wl_max : ℚ) - 2 * wl_per_pixel) wl_per_pixel := by
  induction ts generalizing rs with
  | nil =>
    cases hb
    intro p hp
    exact absurd hp (List.not_mem_nil p)
  | cons x xs ih =>
    rw [batchLoop] at hb
    cases hg : (get_idl_spectrum engine resamp x.1 x.2.1 x.2.2 wl_min wl_max
        resolution norm true wl_per_pixel).2 with
    | error e => rw [hg] at hb; exact absurd hb (by simp)
    | ok ws =>
      rw [hg] at hb
      cases hbl : batchLoop engine resamp wl_min wl_max resolution norm
          wl_per_pixel xs with
      | error e => rw [hbl] at hb; exact absurd hb (by simp)
      | ok rs2 =>
        rw [hbl] at hb
        cases hb
        intro p hp
        rcases List.mem_cons.mp hp with hpw | hpm
        · subst hpw
          exact get_idl_spectrum_wave_of_ok engine resamp x.1 x.2.1 x.2.2
            wl_min wl_max resolution norm wl_per_pixel p hg
        · exact ih rs2 hbl p hpm

theorem zip3_length (teffs loggs fehs : List ℚ)
    (hl1 : loggs.length = teffs.length) (hl2 : fehs.length = teffs.length) :
    (zip3 teffs loggs fehs).length = teffs.length := by
  simp only [zip3, List.length_zip, hl1, hl2]
  omega

theorem zip3_append (pts pls pfs rts rls rfs : List ℚ) (bt bl bf : ℚ)
    (hl1 : pts.length = pls.length) (hl2 : pls.length = pfs.length) :
    zip3 (pts ++ bt :: rts) (pls ++ bl :: rls) (pfs ++ bf :: rfs) =
      zip3 pts pls pfs ++ (bt, bl, bf) :: zip3 rts rls rfs := by
  unfold zip3
  rw [List.zip_append hl2, List.zip_append]
  · simp only [List.zip_cons_cons]
  · rw [List.length_zip]
    omega

theorem getLast?_of_ne_nil {α : Type} (l : List α) (h : l ≠ []) :
    ∃ a, l.getLast? = some a ∧ a ∈ l := by
  refine ⟨l.getLast h, List.getLast?_eq_getLast l h, List.getLast_mem h⟩

theorem idlGrid_eq (lo hi step : ℚ) (hs : 0 < step) (hab : lo ≤ hi) :
    idlGrid lo hi step =
      (List.range ((Int.floor ((hi - lo) / step)).toNat + 1)).map
        (fun i : ℕ => lo + (i : ℚ) * step) := by
  unfold idlGrid
  rw [if_pos ⟨hs, hab⟩]

theorem idlGrid_length (lo hi step : ℚ) (hs : 0 < step) (hab : lo ≤ hi) :
    (idlGrid lo hi step).length = (Int.floor ((hi - lo) / step)).toNat + 1 := by
  rw [idlGrid_eq lo hi step hs hab]
  simp

theorem idlGrid_head (lo hi step : ℚ) (hs : 0 < step) (hab : lo ≤ hi) :
    (idlGrid lo hi step).head? = some lo := by
  rw [idlGrid_eq lo hi step hs hab, List.range_succ_eq_map]
  simp

theorem idlGrid_step (lo hi step : ℚ) (hs : 0 < step) (hab : lo ≤ hi)
    (i : ℕ) (h : i + 1 < (idlGrid lo hi step).length) :
    (idlGrid lo hi step).get ⟨i + 1, h⟩ -
      (idlGrid lo hi step).get ⟨i, Nat.lt_of_succ_lt h⟩ = step := by
  have he := idlGrid_eq lo hi step hs hab
  simp only [List.get_eq_getElem]
  have h1 : i + 1 < (idlGrid lo hi step).length := h
  have h2 : i < (idlGrid lo hi step).length := Nat.lt_of_succ_lt h
  rw [List.getElem_of_eq he, List.getElem_of_eq he, List.getElem_map,
    List.getElem_map, List.getElem_range, List.getElem_range]
  push_cast
  ring

theorem idlGrid_mem_le (lo hi step : ℚ) (hs : 0 < step) (hab : lo ≤ hi)
    (x : ℚ) (hx : x ∈ idlGrid lo hi step) : x ≤ hi := by
  rw [idlGrid_eq lo hi step hs hab] at hx
  rcases List.mem_map.mp hx with ⟨i, hi_mem, rfl⟩
  have hi_lt : i < (Int.floor ((hi - lo) / step)).toNat + 1 :=
    List.mem_range.mp hi_mem
  have h0 : (0 : ℚ) ≤ (hi - lo) / step := div_nonneg (by linarith) hs.le
  have hfl : 0 ≤ Int.floor ((hi - lo) / step) := Int.floor_nonneg.mpr h0
  have hiZ : (i : ℤ) ≤ Int.floor ((hi - lo) / step) := by omega
  have hiQ : (i : ℚ) ≤ (hi - lo) / step := by
    calc (i : ℚ) ≤ ((Int.floor ((hi - lo) / step) : ℤ) : ℚ) := by
          exact_mod_cast hiZ
      _ ≤ (hi - lo) / step := Int.floor_le _
  have hmul : (i : ℚ) * step ≤ ((hi - lo) / step) * step :=
    mul_le_mul_of_nonneg_right hiQ hs.le
  rw [div_mul_cancel₀ _ (ne_of_gt hs)] at hmul
  linarith

/-! ### Claim theorems -/

/-- C1: for every parameter tuple with teff outside [2500, 8000], or logg
outside [-1, 5.5], or feh outside [-5, 1], or wl_min > wl_max, or
wl_max > 200000, or wl_min < 2000, `get_idl_spectrum` raises
`ParameterOutOfBoundsException` and issues zero engine (IDL) calls (the
returned trace of engine calls is empty). -/
theorem invalid_params_rejected_no_engine_calls
    (engine : SynthCmd → List ℚ × List ℚ)
    (resamp : List ℚ → List ℚ → List ℚ → List ℚ)
    (teff logg feh wl_min wl_max resolution norm : ℚ)
    (do_resample : Bool) (wl_per_pixel : ℚ)
    (h : teff > 8000 ∨ teff < 2500 ∨ logg > 5.5 ∨ logg < -1 ∨ feh > 1 ∨
      feh < -5 ∨ wl_min > wl_max ∨ wl_max > 200000 ∨ wl_min < 2000) :
    ∃ msg, get_idl_spectrum engine resamp teff logg feh wl_min wl_max
        resolution norm do_resample wl_per_pixel =
      ([], .error (.ParameterOutOfBoundsException msg)) := by
  obtain ⟨m, hm⟩ := validate_some_of_invalid teff logg feh wl_min wl_max h
  exact ⟨m, get_idl_spectrum_error engine resamp teff logg feh wl_min wl_max
    resolution norm do_resample wl_per_pixel m hm⟩

/-- C1 witness: teff = 9000 is out of bounds, and the request raises with an
empty engine-call trace. -/
theorem invalid_params_rejected_no_engine_calls_witness :
    ∃ msg, get_idl_spectrum constEngine constResamp 9000 4 0 3600 9000
        7000 1 false 0 =
      ([], .error (.ParameterOutOfBoundsException msg)) :=
  invalid_params_rejected_no_engine_calls constEngine constResamp
    9000 4 0 3600 9000 7000 1 false 0 (Or.inl (by norm_num))

/-- C2: the validation chain tests teff first, so for any input with
teff = 9000 — regardless of whether logg, feh, or the wavelength range are
also invalid — `get_idl_spectrum` raises `ParameterOutOfBoundsException`
with the temperature message (which mentions "Temperature"), and no engine
call is made. -/
theorem teff_9000_reports_temperature
    (engine : SynthCmd → List ℚ × List ℚ)
    (resamp : List ℚ → List ℚ → List ℚ → List ℚ)
    (logg feh wl_min wl_max resolution norm : ℚ)
    (do_resample : Bool) (wl_per_pixel : ℚ) :
    get_idl_spectrum engine resamp 9000 logg feh wl_min wl_max resolution norm
        do_resample wl_per_pixel =
      ([], .error (.ParameterOutOfBoundsException tempMsg)) ∧
    "Temperature".data.isPrefixOf tempMsg.data = true := by
  constructor
  · apply get_idl_spectrum_error
    unfold validate
    rw [if_pos (Or.inl (by norm_num))]
  · decide

/-- C3 counterexample: the error raised for the inverted range
(wl_min = 4000, wl_max = 3000) carries exactly the same message as the error
raised for an in-order range violating the lower bound (wl_min = 1000,
wl_max = 3000), and that message contains no '>' character at all — so the
message does not identify wl_min > wl_max as the constraint that failed,
contradicting the claim as stated. -/
theorem inverted_range_message_not_ordering :
    get_idl_spectrum constEngine constResamp 5000 4 0 4000 3000 7000 1
        false 0 =
      ([], .error (.ParameterOutOfBoundsException wlMsg)) ∧
    get_idl_spectrum constEngine constResamp 5000 4 0 1000 3000 7000 1
        false 0 =
      ([], .error (.ParameterOutOfBoundsException wlMsg)) ∧
    wlMsg.data.contains '>' = false :=
  ⟨rfl, rfl, by decide⟩

/-- C3 amended: for an inverted wavelength range (wl_min = 4000,
wl_max = 3000, otherwise valid parameters), `get_idl_spectrum` fails with a
`ParameterOutOfBoundsException` carrying the generic wavelength-bounds
message "Wavelengths must be 2,000 <= lambda (A) <= 60,000"; this message is
shared by all three wavelength checks and does not specifically identify the
ordering constraint. -/
theorem inverted_range_generic_message
    (engine : SynthCmd → List ℚ × List ℚ)
    (resamp : List ℚ → List ℚ → List ℚ → List ℚ)
    (resolution norm : ℚ) (do_resample : Bool) (wl_per_pixel : ℚ) :
    get_idl_spectrum engine resamp 5000 4 0 4000 3000 resolution norm
        do_resample wl_per_pixel =
      ([], .error (.ParameterOutOfBoundsException wlMsg)) ∧
    wlMsg = "Wavelengths must be 2,000 <= lambda (A) <= 60,000" := by
  refine ⟨?_, rfl⟩
  apply get_idl_spectrum_error
  decide

/-- C5: in the synthesis command issued by `get_idl_spectrum`, teff is passed
formatted as an integer (Python %d truncation), wl_min, wl_max and resolution
as integers (%i), logg and feh as floats (exact value), and the
metallicity-correction term CFe is assigned 0 immediately before every
synthesis command; CFe is fixed to 0 for every request (it is not a
parameter of `get_idl_spectrum`). -/
theorem synth_command_formatting
    (engine : SynthCmd → List ℚ × List ℚ)
    (resamp : List ℚ → List ℚ → List ℚ → List ℚ)
    (teff logg feh wl_min wl_max resolution norm : ℚ)
    (do_resample : Bool) (wl_per_pixel : ℚ)
    (hv : validate teff logg feh wl_min wl_max = none) :
    (get_idl_spectrum engine resamp teff logg feh wl_min wl_max resolution
        norm do_resample wl_per_pixel).1.take 2 =
      [.assignCFe 0,
       .synth (mkSynthCmd teff logg feh wl_min wl_max resolution norm)] ∧
    (mkSynthCmd teff logg feh wl_min wl_max resolution norm).teff =
      pyInt teff ∧
    (mkSynthCmd teff logg feh wl_min wl_max resolution norm).wlMin =
      pyInt wl_min ∧
    (mkSynthCmd teff logg feh wl_min wl_max resolution norm).wlMax =
      pyInt wl_max ∧
    (mkSynthCmd teff logg feh wl_min wl_max resolution norm).ipres =
      pyInt resolution ∧
    (mkSynthCmd teff logg feh wl_min wl_max resolution norm).logg = logg ∧
    (mkSynthCmd teff logg feh wl_min wl_max resolution norm).feh = feh ∧
    (mkSynthCmd teff logg feh wl_min wl_max resolution norm).cfe = 0 := by
  refine ⟨?_, rfl, rfl, rfl, rfl, rfl, rfl, rfl⟩
  cases do_resample <;> simp [get_idl_spectrum, hv]

/-- C5 witness: a valid request at (5000, 4, 0, 3600, 9000, 7000, 1). -/
theorem synth_command_formatting_witness :
    (get_idl_spectrum constEngine constResamp 5000 4 0 3600 9000 7000 1
        true 2).1.take 2 =
      [.assignCFe 0, .synth (mkSynthCmd 5000 4 0 3600 9000 7000 1)] ∧
    (mkSynthCmd 5000 4 0 3600 9000 7000 1).teff = pyInt 5000 ∧
    (mkSynthCmd 5000 4 0 3600 9000 7000 1).wlMin = pyInt 3600 ∧
    (mkSynthCmd 5000 4 0 3600 9000 7000 1).wlMax = pyInt 9000 ∧
    (mkSynthCmd 5000 4 0 3600 9000 7000 1).ipres = pyInt 7000 ∧
    (mkSynthCmd 5000 4 0 3600 9000 7000 1).logg = 4 ∧
    (mkSynthCmd 5000 4 0 3600 9000 7000 1).feh = 0 ∧
    (mkSynthCmd 5000 4 0 3600 9000 7000 1).cfe = 0 :=
  synth_command_formatting constEngine constResamp 5000 4 0 3600 9000 7000 1
    true 2 (by decide)

/-- C9: the parameter bounds are inclusive at both endpoints:
`get_idl_spectrum` returns normally (raises nothing) for teff = 2500,
teff = 8000, logg = -1, logg = 5.5, feh = -5, feh = 1, wl_min = 2000,
wl_max = 200000, and for an equal-endpoint wavelength range
wl_min = wl_max. -/
theorem boundary_params_accepted
    (engine : SynthCmd → List ℚ × List ℚ)
    (resamp : List ℚ → List ℚ → List ℚ → List ℚ) :
    isOk (get_idl_spectrum engine resamp 2500 4 0 3600 9000 7000 1
      false 0).2 = true ∧
    isOk (get_idl_spectrum engine resamp 8000 4 0 3600 9000 7000 1
      false 0).2 = true ∧
    isOk (get_idl_spectrum engine resamp 5000 (-1) 0 3600 9000 7000 1
      false 0).2 = true ∧
    isOk (get_idl_spectrum engine resamp 5000 5.5 0 3600 9000 7000 1
      false 0).2 = true ∧
    isOk (get_idl_spectrum engine resamp 5000 4 (-5) 3600 9000 7000 1
      false 0).2 = true ∧
    isOk (get_idl_spectrum engine resamp 5000 4 1 3600 9000 7000 1
      false 0).2 = true ∧
    isOk (get_idl_spectrum engine resamp 5000 4 0 2000 9000 7000 1
      false 0).2 = true ∧
    isOk (get_idl_spectrum engine resamp 5000 4 0 3600 200000 7000 1
      false 0).2 = true ∧
    isOk (get_idl_spectrum engine resamp 5000 4 0 3600 3600 7000 1
      false 0).2 = true := by
  refine ⟨?_, ?_, ?_, ?_, ?_, ?_, ?_, ?_, ?_⟩ <;>
    exact get_idl_spectrum_isOk_of_valid engine resamp _ _ _ _ _ _ _ _ _
      ((validate_none_iff _ _ _ _ _).mpr (by norm_num))

/-- C4: when resampling is requested with per-pixel step s (and the request
is valid and the grid nonempty, i.e. wl_min + s ≤ wl_max - 2s with s > 0),
the wavelength array returned by `get_idl_spectrum` is the uniform grid
[wl_min+s : wl_max-2s : s]: consecutive elements differ by s, the first
element is wl_min + s, no element exceeds wl_max - 2s, and the length is
floor((wl_max - 2s - (wl_min + s))/s) + 1.  (`pyInt` reflects the `%i`
formatting of wl_min/wl_max in the grid command; it is the identity on the
integer wavelengths the script uses.) -/
theorem resample_grid_spec
    (engine : SynthCmd → List ℚ × List ℚ)
    (resamp : List ℚ → List ℚ → List ℚ → List ℚ)
    (teff logg feh wl_min wl_max resolution norm s : ℚ)
    (hv : validate teff logg feh wl_min wl_max = none)
    (hs : 0 < s)
    (hab : (pyInt wl_min : ℚ) + s ≤ (pyInt wl_max : ℚ) - 2 * s) :
    (∃ spec,
      (get_idl_spectrum engine resamp teff logg feh wl_min wl_max resolution
          norm true s).2 =
        .ok (idlGrid ((pyInt wl_min : ℚ) + s) ((pyInt wl_max : ℚ) - 2 * s) s,
          spec)) ∧
    (idlGrid ((pyInt wl_min : ℚ) + s) ((pyInt wl_max : ℚ) - 2 * s) s).head? =
      some ((pyInt wl_min : ℚ) + s) ∧
    (∀ (i : ℕ)
      (h : i + 1 <
        (idlGrid ((pyInt wl_min : ℚ) + s)
          ((pyInt wl_max : ℚ) - 2 * s) s).length),
      (idlGrid ((pyInt wl_min : ℚ) + s) ((pyInt wl_max : ℚ) - 2 * s) s).get
          ⟨i + 1, h⟩ -
        (idlGrid ((pyInt wl_min : ℚ) + s) ((pyInt wl_max : ℚ) - 2 * s) s).get
          ⟨i, Nat.lt_of_succ_lt h⟩ = s) ∧
    (∀ x ∈ idlGrid ((pyInt wl_min : ℚ) + s) ((pyInt wl_max : ℚ) - 2 * s) s,
      x ≤ (pyInt wl_max : ℚ) - 2 * s) ∧
    (idlGrid ((pyInt wl_min : ℚ) + s) ((pyInt wl_max : ℚ) - 2 * s) s).length =
      (Int.floor ((((pyInt wl_max : ℚ) - 2 * s) - ((pyInt wl_min : ℚ) + s)) /
        s)).toNat + 1 :=
  ⟨⟨_, get_idl_spectrum_ok_resample engine resamp teff logg feh wl_min wl_max
      resolution norm s hv⟩,
   idlGrid_head _ _ _ hs hab,
   fun i h => idlGrid_step _ _ _ hs hab i h,
   fun x hx => idlGrid_mem_le _ _ _ hs hab x hx,
   idlGrid_length _ _ _ hs hab⟩

/-- C4 witness: valid request (5000, 4, 0) over [2000, 2010] with step 3. -/
theorem resample_grid_spec_witness :
    (∃ spec,
      (get_idl_spectrum constEngine constResamp 5000 4 0 2000 2010 7000 1
          true 3).2 =
        .ok (idlGrid ((pyInt 2000 : ℚ) + 3) ((pyInt 2010 : ℚ) - 2 * 3) 3,
          spec)) ∧
    (idlGrid ((pyInt 2000 : ℚ) + 3) ((pyInt 2010 : ℚ) - 2 * 3) 3).head? =
      some ((pyInt 2000 : ℚ) + 3) ∧
    (∀ (i : ℕ)
      (h : i + 1 <
        (idlGrid ((pyInt 2000 : ℚ) + 3) ((pyInt 2010 : ℚ) - 2 * 3) 3).length),
      (idlGrid ((pyInt 2000 : ℚ) + 3) ((pyInt 2010 : ℚ) - 2 * 3) 3).get
          ⟨i + 1, h⟩ -
        (idlGrid ((pyInt 2000 : ℚ) + 3) ((pyInt 2010 : ℚ) - 2 * 3) 3).get
          ⟨i, Nat.lt_of_succ_lt h⟩ = 3) ∧
    (∀ x ∈ idlGrid ((pyInt 2000 : ℚ) + 3) ((pyInt 2010 : ℚ) - 2 * 3) 3,
      x ≤ (pyInt 2010 : ℚ) - 2 * 3) ∧
    (idlGrid ((pyInt 2000 : ℚ) + 3) ((pyInt 2010 : ℚ) - 2 * 3) 3).length =
      (Int.floor ((((pyInt 2010 : ℚ) - 2 * 3) - ((pyInt 2000 : ℚ) + 3)) /
        3)).toNat + 1 :=
  resample_grid_spec constEngine constResamp 5000 4 0 2000 2010 7000 1 3
    (by decide) (by norm_num)
    (by rw [(by decide : pyInt 2000 = 2000), (by decide : pyInt 2010 = 2010)]
        norm_num)

/-- C6 counterexample: for the empty batch (common length N = 0, all tuples
vacuously valid) `get_idl_spectra` does not return a 0-row flux table; the
loop body never runs, the local name `wave` is never bound, and the
`return wave, spectra` raises `NameError`. -/
theorem batch_empty_input_name_error :
    get_idl_spectra constEngine constResamp [] [] [] 3600 9000 7000 1 true 1 =
      .error (.NameError "wave") := rfl

/-- C6 amended: for every triple of parallel input sequences of common length
N ≥ 1 whose tuples are all valid, `get_idl_spectra` returns a flux table with
exactly N rows in which row i is the spectrum produced for input tuple i,
together with the wavelength vector from the last request.  (For N = 0 the
function instead raises `NameError`, since no request ever binds `wave`.) -/
theorem batch_order_preserved
    (engine : SynthCmd → List ℚ × List ℚ)
    (resamp : List ℚ → List ℚ → List ℚ → List ℚ)
    (teffs loggs fehs : List ℚ)
    (wl_min wl_max resolution norm : ℚ) (do_resample : Bool)
    (wl_per_pixel : ℚ)
    (hl1 : loggs.length = teffs.length) (hl2 : fehs.length = teffs.length)
    (hne : zip3 teffs loggs fehs ≠ [])
    (hvalid : ∀ x ∈ zip3 teffs loggs fehs,
      validate x.1 x.2.1 x.2.2 wl_min wl_max = none) :
    (zip3 teffs loggs fehs).length = teffs.length ∧
    get_idl_spectra engine resamp teffs loggs fehs wl_min wl_max resolution
        norm do_resample wl_per_pixel =
      .ok ((requestPair engine resamp wl_min wl_max resolution norm
              wl_per_pixel ((zip3 teffs loggs fehs).getLast?.getD (0, 0, 0))).1,
           (zip3 teffs loggs fehs).map
             (fun x => (requestPair engine resamp wl_min wl_max resolution
               norm wl_per_pixel x).2)) := by
  refine ⟨zip3_length _ _ _ hl1 hl2, ?_⟩
  obtain ⟨last, hlast, -⟩ := getLast?_of_ne_nil _ hne
  have hb := batchLoop_ok engine resamp wl_min wl_max resolution norm
    wl_per_pixel _ hvalid
  simp only [get_idl_spectra, hb, List.getLast?_map, hlast, Option.map_some,
    Option.getD_some, List.map_map]
  rfl

/-- C6 witness: two valid tuples. -/
theorem batch_order_preserved_witness :
    (zip3 [5000, 6000] [4, 4] [0, 0]).length = [5000, 6000].length ∧
    get_idl_spectra constEngine constResamp [5000, 6000] [4, 4] [0, 0]
        3600 9000 7000 1 false 1 =
      .ok ((requestPair constEngine constResamp 3600 9000 7000 1 1
              ((zip3 [5000, 6000] [4, 4] [0, 0]).getLast?.getD (0, 0, 0))).1,
           (zip3 [5000, 6000] [4, 4] [0, 0]).map
             (fun x => (requestPair constEngine constResamp 3600 9000 7000 1
               1 x).2)) :=
  batch_order_preserved constEngine constResamp [5000, 6000] [4, 4] [0, 0]
    3600 9000 7000 1 false 1 rfl rfl (by decide) (by decide)

/-- C7: `get_idl_spectra` has no per-tuple error handling: with any prefix of
valid tuples followed by a tuple whose validation fails with message m, the
exception propagates out of `get_idl_spectra` unchanged — the result is the
raised `ParameterOutOfBoundsException`, no result table is produced, and the
spectra collected for the prefix are lost. -/
theorem batch_aborts_on_first_failure
    (engine : SynthCmd → List ℚ × List ℚ)
    (resamp : List ℚ → List ℚ → List ℚ → List ℚ)
    (pts pls pfs rts rls rfs : List ℚ) (bt bl bf : ℚ)
    (wl_min wl_max resolution norm : ℚ) (do_resample : Bool)
    (wl_per_pixel : ℚ) (m : String)
    (hl1 : pts.length = pls.length) (hl2 : pls.length = pfs.length)
    (hvalid : ∀ x ∈ zip3 pts pls pfs,
      validate x.1 x.2.1 x.2.2 wl_min wl_max = none)
    (hbad : validate bt bl bf wl_min wl_max = some m) :
    get_idl_spectra engine resamp (pts ++ bt :: rts) (pls ++ bl :: rls)
        (pfs ++ bf :: rfs) wl_min wl_max resolution norm do_resample
        wl_per_pixel =
      .error (.ParameterOutOfBoundsException m) := by
  unfold get_idl_spectra
  rw [zip3_append pts pls pfs rts rls rfs bt bl bf hl1 hl2,
    batchLoop_append_error engine resamp wl_min wl_max resolution norm
      wl_per_pixel (zip3 pts pls pfs) (zip3 rts rls rfs) (bt, bl, bf) m
      hvalid hbad]

/-- C7 witness: one valid tuple followed by an invalid one (teff = 9000);
the whole batch fails with the temperature exception. -/
theorem batch_aborts_on_first_failure_witness :
    get_idl_spectra constEngine constResamp ([5000] ++ 9000 :: [])
        ([4] ++ 4 :: []) ([0] ++ 0 :: []) 3600 9000 7000 1 true 1 =
      .error (.ParameterOutOfBoundsException tempMsg) :=
  batch_aborts_on_first_failure constEngine constResamp [5000] [4] [0]
    [] [] [] 9000 4 0 3600 9000 7000 1 true 1 tempMsg rfl rfl
    (by decide) (by decide)

/-- C8 (code bug): the selection mask of `retrieve_standards` does pick the
cool-dwarf row (teff < 5500 and logg > 4.0), but no spectrum request is ever
issued for it: the call references the module-level name `wl_per_pixel`,
which is assigned only inside the `using_echelle` branch that does not run,
so the first loop iteration raises `NameError` instead of requesting a
spectrum. -/
theorem retrieve_standards_name_error :
    standardsMask ⟨"0001", 4000, 5, 0⟩ = true ∧
    retrieve_standards constEngine constResamp [⟨"0001", 4000, 5, 0⟩] =
      .error (.NameError "wl_per_pixel") :=
  ⟨by decide, rfl⟩

/-- C10: `get_idl_spectra` ignores its do_resample argument: for every value
of that argument the result equals the do_resample = True run (it invokes
`get_idl_spectrum` with do_resample fixed to True), and whenever the batch
returns normally the resulting wavelength vector is the resampling grid
[wl_min + step : wl_max - 2*step : step]. -/
theorem batch_ignores_resample_flag
    (engine : SynthCmd → List ℚ × List ℚ)
    (resamp : List ℚ → List ℚ → List ℚ → List ℚ)
    (teffs loggs fehs : List ℚ)
    (wl_min wl_max resolution norm : ℚ) (do_resample : Bool)
    (wl_per_pixel : ℚ) :
    get_idl_spectra engine resamp teffs loggs fehs wl_min wl_max resolution
        norm do_resample wl_per_pixel =
      get_idl_spectra engine resamp teffs loggs fehs wl_min wl_max resolution
        norm true wl_per_pixel ∧
    ∀ w rows,
      get_idl_spectra engine resamp teffs loggs fehs wl_min wl_max resolution
          norm do_resample wl_per_pixel = .ok (w, rows) →
        w = idlGrid ((pyInt wl_min : ℚ) + wl_per_pixel)
          ((pyInt wl_max : ℚ) - 2 * wl_per_pixel) wl_per_pixel := by
  refine ⟨rfl, fun w rows h => ?_⟩
  unfold get_idl_spectra at h
  cases hb : batchLoop engine resamp wl_min wl_max resolution norm
      wl_per_pixel (zip3 teffs loggs fehs) with
  | error e => simp only [hb] at h; exact absurd h (by simp)
  | ok rs =>
    simp only [hb] at h
    cases hl : rs.getLast? with
    | none => simp only [hl] at h; exact absurd h (by simp)
    | some ws =>
      simp only [hl] at h
      simp only [Except.ok.injEq, Prod.mk.injEq] at h
      have hmem : ws ∈ rs := by
        rcases rs with - | ⟨a, as⟩
        · exact absurd hl (by simp)
        · obtain ⟨b, hb2, hm2⟩ := getLast?_of_ne_nil (a :: as) (by simp)
          rw [hl] at hb2
          cases hb2
          exact hm2
      rw [← h.1]
      exact batchLoop_ok_fst engine resamp wl_min wl_max resolution norm
        wl_per_pixel (zip3 teffs loggs fehs) rs hb ws hmem

/-- C10 witness: a concrete batch run with do_resample = False equals the
do_resample = True run, and its wavelength vector is the resampling grid. -/
theorem batch_ignores_resample_flag_witness :
    (get_idl_spectra constEngine constResamp [5000] [4] [0] 2000 2010 7000 1
        false 3 =
      get_idl_spectra constEngine constResamp [5000] [4] [0] 2000 2010 7000 1
        true 3) ∧
    idlGrid ((pyInt 2000 : ℚ) + 3) ((pyInt 2010 : ℚ) - 2 * 3) 3 =
      idlGrid ((pyInt 2000 : ℚ) + 3) ((pyInt 2010 : ℚ) - 2 * 3) 3 :=
  ⟨(batch_ignores_resample_flag constEngine constResamp [5000] [4] [0]
      2000 2010 7000 1 false 3).1,
   (batch_ignores_resample_flag constEngine constResamp [5000] [4] [0]
      2000 2010 7000 1 false 3).2
     (idlGrid ((pyInt 2000 : ℚ) + 3) ((pyInt 2010 : ℚ) - 2 * 3) 3)
     [(idlGrid ((pyInt 2000 : ℚ) + 3) ((pyInt 2010 : ℚ) - 2 * 3) 3)]
     rfl⟩

end Spectra
